import Mathlib

/-!
Shallow embedding of the driver-lifecycle core of the Starling driver hub
server (src/server/routes.ts, src/server/storage.ts, src/shared/schema.ts).

Conventions of the embedding:
* Timestamps are `Nat` values passed in explicitly (the code calls `new Date()`;
  here the caller supplies `now`).
* Nullable database columns are `Option` fields; a JS falsiness test on a
  nullable string column (`!profile.approvalStatus`) is `optTruthy = false`,
  where `none` and `some ""` are the falsy values.
* A PATCH body is a record of `Option` fields: `none` means the key is absent
  from the request (drizzle ignores absent keys in `set`), `some v` means the
  key is present with value `v`.  For a nullable column the value itself is an
  `Option`, so an explicit JSON `null` is `some none`.
* Remote services (the Stripe identity session status, the Onfleet worker
  lookup and creation) are oracles: their responses are explicit arguments.
* Fallible route handlers return `Except String`; the string is the error
  message of the JSON response.
-/

namespace StarlingHub

deriving instance DecidableEq for Except

/-- JS truthiness of a `string | null` value: `null` and the empty string are
falsy, every other string is truthy. -/
def optTruthy : Option String → Bool
  | none => false
  | some s => s ≠ ""

/-! ## Data model (src/shared/schema.ts, table driver_profiles) -/

/-- One row of the `driver_profiles` table (the columns the lifecycle reads or
writes; `id`, `userId` and `createdAt` are omitted, the record itself stands
for a row already looked up by its key). -/
structure Profile where
  firstName : String
  lastName : String
  email : String
  phone : Option String
  streetAddress : Option String
  city : Option String
  province : Option String
  postalCode : Option String
  googlePlaceId : Option String
  etransferEmail : String
  etransferAutoDepositConfirmed : Bool
  vehicleMake : Option String
  vehicleModel : Option String
  vehicleYear : Option String
  vehicleColor : Option String
  licensePlate : Option String
  vehiclePhotoUrl : Option String
  licensePlatePhotoUrl : Option String
  onboardingCompleted : Bool
  onboardingStep : Nat
  agreementSigned : Bool
  agreementSignedAt : Option Nat
  onfleetId : Option String
  onfleetSyncedAt : Option Nat
  approvalStatus : Option String
  approvedAt : Option Nat
  approvedBy : Option String
  identityVerificationStatus : Option String
  identityVerificationSessionId : Option String
  identityVerifiedAt : Option Nat
  updatedAt : Nat
  deriving DecidableEq, Repr

/-- A body accepted by `updateDriverProfileSchema`
(`createInsertSchema(driverProfiles).omit(id, userId, createdAt, updatedAt).partial()`):
every remaining column, optional.  `none` = key absent. -/
structure UpdateBody where
  firstName : Option String := none
  lastName : Option String := none
  email : Option String := none
  phone : Option (Option String) := none
  streetAddress : Option (Option String) := none
  city : Option (Option String) := none
  province : Option (Option String) := none
  postalCode : Option (Option String) := none
  googlePlaceId : Option (Option String) := none
  etransferEmail : Option String := none
  etransferAutoDepositConfirmed : Option Bool := none
  vehicleMake : Option (Option String) := none
  vehicleModel : Option (Option String) := none
  vehicleYear : Option (Option String) := none
  vehicleColor : Option (Option String) := none
  licensePlate : Option (Option String) := none
  vehiclePhotoUrl : Option (Option String) := none
  licensePlatePhotoUrl : Option (Option String) := none
  onboardingCompleted : Option Bool := none
  onboardingStep : Option Nat := none
  agreementSigned : Option Bool := none
  agreementSignedAt : Option (Option Nat) := none
  onfleetId : Option (Option String) := none
  onfleetSyncedAt : Option (Option Nat) := none
  approvalStatus : Option (Option String) := none
  approvedAt : Option (Option Nat) := none
  approvedBy : Option (Option String) := none
  identityVerificationStatus : Option (Option String) := none
  identityVerificationSessionId : Option (Option String) := none
  identityVerifiedAt : Option (Option Nat) := none
  deriving DecidableEq, Repr

/-- The body with every key absent. -/
def UpdateBody.empty : UpdateBody := {}

/-- `storage.updateDriverProfile`: drizzle `set` applies the present keys and
stamps `updatedAt`; absent keys keep the stored value. -/
def applyUpdate (p : Profile) (b : UpdateBody) (now : Nat) : Profile where
  firstName := b.firstName.getD p.firstName
  lastName := b.lastName.getD p.lastName
  email := b.email.getD p.email
  phone := b.phone.getD p.phone
  streetAddress := b.streetAddress.getD p.streetAddress
  city := b.city.getD p.city
  province := b.province.getD p.province
  postalCode := b.postalCode.getD p.postalCode
  googlePlaceId := b.googlePlaceId.getD p.googlePlaceId
  etransferEmail := b.etransferEmail.getD p.etransferEmail
  etransferAutoDepositConfirmed :=
    b.etransferAutoDepositConfirmed.getD p.etransferAutoDepositConfirmed
  vehicleMake := b.vehicleMake.getD p.vehicleMake
  vehicleModel := b.vehicleModel.getD p.vehicleModel
  vehicleYear := b.vehicleYear.getD p.vehicleYear
  vehicleColor := b.vehicleColor.getD p.vehicleColor
  licensePlate := b.licensePlate.getD p.licensePlate
  vehiclePhotoUrl := b.vehiclePhotoUrl.getD p.vehiclePhotoUrl
  licensePlatePhotoUrl := b.licensePlatePhotoUrl.getD p.licensePlatePhotoUrl
  onboardingCompleted := b.onboardingCompleted.getD p.onboardingCompleted
  onboardingStep := b.onboardingStep.getD p.onboardingStep
  agreementSigned := b.agreementSigned.getD p.agreementSigned
  agreementSignedAt := b.agreementSignedAt.getD p.agreementSignedAt
  onfleetId := b.onfleetId.getD p.onfleetId
  onfleetSyncedAt := b.onfleetSyncedAt.getD p.onfleetSyncedAt
  approvalStatus := b.approvalStatus.getD p.approvalStatus
  approvedAt := b.approvedAt.getD p.approvedAt
  approvedBy := b.approvedBy.getD p.approvedBy
  identityVerificationStatus :=
    b.identityVerificationStatus.getD p.identityVerificationStatus
  identityVerificationSessionId :=
    b.identityVerificationSessionId.getD p.identityVerificationSessionId
  identityVerifiedAt := b.identityVerifiedAt.getD p.identityVerifiedAt
  updatedAt := now

/-! ## Step validation schemas (src/server/routes.ts, lines 12-42)

The zod format validators `z.string().email()` and the Canadian phone regex
belong to an external library; the embedding is parametric in the two
predicates `emailOk` and `phoneOk` (every theorem below holds for all of
them).  `z.string().min(1)` on a required key demands a present, non-null,
non-empty string; `z.literal(true)` demands the key present with value
`true`. -/

/-- A required `z.string().min(1)` key over a non-nullable column. -/
def reqNonEmpty : Option String → Bool
  | some s => s ≠ ""
  | none => false

/-- A required `z.string().min(1)` key over a nullable column of the body. -/
def reqNNStr : Option (Option String) → Bool
  | some (some s) => s ≠ ""
  | _ => false

/-- `step1ValidationSchema`: personal info, Canadian phone, e-transfer email,
auto-deposit confirmed. -/
def step1Valid (emailOk phoneOk : String → Bool) (b : UpdateBody) : Bool :=
  reqNonEmpty b.firstName && reqNonEmpty b.lastName &&
  (match b.email with | some s => emailOk s | none => false) &&
  (match b.phone with | some (some s) => phoneOk s | _ => false) &&
  (match b.etransferEmail with | some s => emailOk s | none => false) &&
  b.etransferAutoDepositConfirmed == some true

/-- `step2ValidationSchema`: a complete address. -/
def step2Valid (b : UpdateBody) : Bool :=
  reqNNStr b.streetAddress && reqNNStr b.city &&
  reqNNStr b.province && reqNNStr b.postalCode

/-- `step3ValidationSchema`: complete vehicle fields and both photos. -/
def step3Valid (b : UpdateBody) : Bool :=
  reqNNStr b.vehicleMake && reqNNStr b.vehicleModel &&
  reqNNStr b.vehicleYear && reqNNStr b.vehicleColor &&
  reqNNStr b.licensePlate && reqNNStr b.vehiclePhotoUrl &&
  reqNNStr b.licensePlatePhotoUrl

/-- `step4ValidationSchema`: `agreementSigned: z.literal(true)`. -/
def step4Valid (b : UpdateBody) : Bool :=
  b.agreementSigned == some true

/-! ## PATCH /api/profile (src/server/routes.ts, lines 105-181, update path) -/

/-- The update path of `PATCH /api/profile` on an existing profile: run the
step validation selected by `updateData.onboardingStep` (the step-5 schema
only when the body also carries a truthy `onboardingCompleted`), apply the
body through `updateDriverProfileSchema` and `storage.updateDriverProfile`,
then the derived transition: if the updated profile has
`onboardingCompleted` and a falsy `approvalStatus`, a second update sets
`approvalStatus = "pending"`. -/
def patchProfile (emailOk phoneOk : String → Bool) (p : Profile)
    (b : UpdateBody) (now : Nat) : Except String Profile :=
  let ok : Bool :=
    if b.onboardingStep = some 2 then step1Valid emailOk phoneOk b
    else if b.onboardingStep = some 3 then step2Valid b
    else if b.onboardingStep = some 4 then step3Valid b
    else if b.onboardingStep = some 5 && b.onboardingCompleted == some true then
      step4Valid b
    else true
  if ok then
    let u := applyUpdate p b now
    if u.onboardingCompleted && !optTruthy u.approvalStatus then
      .ok { u with approvalStatus := some "pending", updatedAt := now }
    else .ok u
  else .error "Invalid data"

/-! ## Admin approve / reject (src/server/routes.ts, lines 256-285 and 551-573)

Both routes first look the profile up by id (404 when absent); the embedding
takes the found profile directly. -/

/-- `POST /api/admin/approve/:profileId` on a found profile: conflict only
when the profile is already approved; otherwise set approval fields and
initialize `identityVerificationStatus = "pending"`. -/
def approveProfile (p : Profile) (adminId : String) (now : Nat) :
    Except String Profile :=
  if p.approvalStatus = some "approved" then .error "Driver already approved"
  else .ok { p with
    approvalStatus := some "approved"
    approvedAt := some now
    approvedBy := some adminId
    identityVerificationStatus := some "pending"
    updatedAt := now }

/-- `POST /api/admin/reject/:profileId` on a found profile: no precondition
check at all; sets the rejection fields and touches no verification field. -/
def rejectProfile (p : Profile) (adminId : String) (now : Nat) : Profile :=
  { p with
    approvalStatus := some "rejected"
    approvedAt := some now
    approvedBy := some adminId
    updatedAt := now }

/-! ## Onfleet sync adapter (src/server/storage.ts, syncDriverToOnfleet) -/

/-- Responses of the remote Onfleet API for one sync attempt: the worker id
found by phone (`none` for not found or API error) and the id of a freshly
created worker (`none` on API failure).  The geocoding lookup and the
update-worker call only shape the remote payload; they never change the
returned `SyncResult`, so they are not part of the oracle. -/
structure OnfleetRemote where
  findWorkerResult : Option String
  createWorkerResult : Option String
  deriving DecidableEq, Repr

/-- The result record of `syncDriverToOnfleet`. -/
structure SyncResult where
  success : Bool
  onfleetId : Option String
  isExisting : Bool
  error : Option String
  deriving DecidableEq, Repr

/-- `syncDriverToOnfleet`: fail fast on a falsy phone, otherwise find the
worker by phone (update in place when found, keeping its id), else create a
new worker; a failed creation yields `success = false`. -/
def syncDriverToOnfleet (phone : Option String) (remote : OnfleetRemote) :
    SyncResult :=
  if !optTruthy phone then
    ⟨false, none, false, some "Phone number is required"⟩
  else
    match remote.findWorkerResult with
    | some wid => ⟨true, some wid, true, none⟩
    | none =>
      match remote.createWorkerResult with
      | some wid => ⟨true, some wid, false, none⟩
      | none => ⟨false, none, false, some "Failed to create worker in Onfleet"⟩

/-! ## Identity verification status recording

Two invocation paths map the remote Stripe session status onto the local
enum and conditionally trigger the Onfleet sync. -/

/-- Status mapping of the polling path (`GET /api/identity/status`,
src/server/routes.ts lines 356-375): the default case keeps the current
local status. -/
def mapStatusPoll (cur : Option String) (remote : String) : Option String :=
  if remote = "verified" then some "verified"
  else if remote = "requires_input" || remote = "requires_action" then
    some "requires_input"
  else if remote = "canceled" then some "failed"
  else if remote = "processing" || remote = "requires_review" then
    some "pending"
  else cur

/-- Status mapping of the webhook path (`POST /api/webhooks/stripe-identity`,
src/server/routes.ts lines 484-502): the default case is `"pending"`. -/
def mapStatusWebhook (remote : String) : String :=
  if remote = "verified" then "verified"
  else if remote = "requires_input" || remote = "requires_action" then
    "requires_input"
  else if remote = "canceled" then "failed"
  else if remote = "processing" || remote = "requires_review" then "pending"
  else "pending"

/-- `GET /api/identity/status` (lines 338-428), the part that records a
verification result: with no stored session id nothing is written; otherwise
the mapped status is compared with the stored one, and only on a change the
profile is updated (stamping `identityVerifiedAt` exactly when the new status
is verified) and, for a fresh `verified` with truthy phone and falsy
`onfleetId`, the Onfleet sync runs; only a successful sync with a truthy
worker id writes `onfleetId`/`onfleetSyncedAt`.  Returns the stored profile
and whether the sync was triggered. -/
def pollRecord (p : Profile) (remote : String) (now : Nat)
    (oracle : OnfleetRemote) : Profile × Bool :=
  match p.identityVerificationSessionId with
  | none => (p, false)
  | some _ =>
    let newStatus := mapStatusPoll p.identityVerificationStatus remote
    if newStatus = p.identityVerificationStatus then (p, false)
    else
      let u := { p with
        identityVerificationStatus := newStatus
        identityVerifiedAt :=
          if newStatus = some "verified" then some now else p.identityVerifiedAt
        updatedAt := now }
      if newStatus = some "verified" && optTruthy p.phone &&
          !optTruthy p.onfleetId then
        let sync := syncDriverToOnfleet p.phone oracle
        if sync.success && optTruthy sync.onfleetId then
          ({ u with onfleetId := sync.onfleetId, onfleetSyncedAt := some now,
                    updatedAt := now }, true)
        else (u, true)
      else (u, false)

/-- `POST /api/webhooks/stripe-identity` (lines 483-541) on the profile found
by session id: unconditionally writes the mapped status (re-stamping
`identityVerifiedAt` on every verified event), then triggers the sync
whenever the new status is verified, the phone is truthy and `onfleetId` is
falsy — with no comparison against the stored status.  Returns the stored
profile and whether the sync was triggered. -/
def webhookRecord (p : Profile) (remote : String) (now : Nat)
    (oracle : OnfleetRemote) : Profile × Bool :=
  let newStatus := mapStatusWebhook remote
  let u := { p with
    identityVerificationStatus := some newStatus
    identityVerifiedAt :=
      if newStatus = "verified" then some now else p.identityVerifiedAt
    updatedAt := now }
  if newStatus = "verified" && optTruthy p.phone && !optTruthy p.onfleetId then
    let sync := syncDriverToOnfleet p.phone oracle
    if sync.success && optTruthy sync.onfleetId then
      ({ u with onfleetId := sync.onfleetId, onfleetSyncedAt := some now,
                updatedAt := now }, true)
    else (u, true)
  else (u, false)

/-! ## Availability store (src/server/storage.ts, src/shared/schema.ts) -/

/-- One row of the `driver_availability` table. -/
structure Avail where
  id : Nat
  driverProfileId : String
  date : String
  status : String
  notes : Option String
  thermalBlanket : Bool
  thermalBag : Bool
  otherPackaging : Bool
  responseToken : Option String
  respondedAt : Option Nat
  updatedAt : Nat
  deriving DecidableEq, Repr

/-- The `driver_availability` table with its id generator. -/
structure AvailStore where
  entries : List Avail
  nextId : Nat
  deriving DecidableEq, Repr

/-- The (profile, date) key predicate. -/
def availKey (pid date : String) (a : Avail) : Bool :=
  a.driverProfileId == pid && a.date == date

/-- `getDriverAvailabilityByDate`: first row matching profile and date. -/
def getDriverAvailabilityByDate (st : AvailStore) (pid date : String) :
    Option Avail :=
  st.entries.find? (availKey pid date)

/-- Lexicographic less-or-equal on code point lists. -/
def lexLeN : List Nat → List Nat → Bool
  | [], _ => true
  | _ :: _, [] => false
  | a :: as, b :: bs =>
    if a < b then true else if b < a then false else lexLeN as bs

/-- The varchar comparison the `gte`/`lte` query operators perform on the
`date` column: lexicographic over the code points (chronological for
YYYY-MM-DD strings). -/
def dateLe (s t : String) : Bool :=
  lexLeN (s.data.map Char.toNat) (t.data.map Char.toNat)

/-- `getDriverAvailability`: filter by profile, and by the inclusive date
range only when both bounds are given; no ordering is applied (the query has
no order-by clause), rows come back in store order. -/
def getDriverAvailability (st : AvailStore) (pid : String)
    (startDate endDate : Option String) : List Avail :=
  match startDate, endDate with
  | some s, some e =>
    st.entries.filter (fun a => a.driverProfileId == pid &&
      dateLe s a.date && dateLe a.date e)
  | _, _ => st.entries.filter (fun a => a.driverProfileId == pid)

/-- The `Partial<InsertDriverAvailability>` data handed to the upsert: `none`
means the key is absent (or carries `undefined`, which drizzle ignores). -/
structure UpsertData where
  status : Option String := none
  notes : Option (Option String) := none
  thermalBlanket : Option Bool := none
  thermalBag : Option Bool := none
  otherPackaging : Option Bool := none
  responseToken : Option (Option String) := none
  respondedAt : Option (Option Nat) := none
  deriving DecidableEq, Repr

/-- Drizzle `set` of the present keys of the data, stamping `updatedAt`. -/
def applyAvailData (d : UpsertData) (now : Nat) (a : Avail) : Avail :=
  { a with
    status := d.status.getD a.status
    notes := d.notes.getD a.notes
    thermalBlanket := d.thermalBlanket.getD a.thermalBlanket
    thermalBag := d.thermalBag.getD a.thermalBag
    otherPackaging := d.otherPackaging.getD a.otherPackaging
    responseToken := d.responseToken.getD a.responseToken
    respondedAt := d.respondedAt.getD a.respondedAt
    updatedAt := now }

/-- `upsertDriverAvailability`: read the (profile, date) row; when found,
update that row by id; otherwise insert a new row with
`status = data.status || "available"`, the present data keys, and the schema
defaults for the rest.  Returns the store and the written row. -/
def upsertDriverAvailability (st : AvailStore) (pid date : String)
    (d : UpsertData) (now : Nat) : AvailStore × Avail :=
  match getDriverAvailabilityByDate st pid date with
  | some ex =>
    let upd := applyAvailData d now ex
    ({ st with
        entries := st.entries.map fun a =>
          if a.id == ex.id then applyAvailData d now a else a },
     upd)
  | none =>
    let a : Avail :=
      { id := st.nextId
        driverProfileId := pid
        date := date
        status := (d.status.getD "available")
        notes := d.notes.getD none
        thermalBlanket := d.thermalBlanket.getD false
        thermalBag := d.thermalBag.getD false
        otherPackaging := d.otherPackaging.getD false
        responseToken := d.responseToken.getD none
        respondedAt := d.respondedAt.getD none
        updatedAt := now }
    ({ entries := st.entries ++ [a], nextId := st.nextId + 1 }, a)

/-- `POST /api/availability` (src/server/routes.ts, lines 608-636) after
validation: upsert with the validated status, the optional notes and
equipment flags, and `respondedAt = now` on every write. -/
def setAvailability (st : AvailStore) (pid date status : String)
    (notes : Option (Option String)) (tBlanket tBag other : Option Bool)
    (now : Nat) : AvailStore × Avail :=
  upsertDriverAvailability st pid date
    { status := some status
      notes := notes
      thermalBlanket := tBlanket
      thermalBag := tBag
      otherPackaging := other
      respondedAt := some (some now) } now

/-- Number of rows of the store holding the (profile, date) key. -/
def countKey (st : AvailStore) (pid date : String) : Nat :=
  st.entries.countP (availKey pid date)

/-! ## Concrete fixtures -/

/-- A profile that has just finished step 1 of onboarding. -/
def pBase : Profile where
  firstName := "Ada"
  lastName := "Driver"
  email := "ada@example.com"
  phone := some "416-555-1234"
  streetAddress := none
  city := none
  province := none
  postalCode := none
  googlePlaceId := none
  etransferEmail := "ada@example.com"
  etransferAutoDepositConfirmed := true
  vehicleMake := none
  vehicleModel := none
  vehicleYear := none
  vehicleColor := none
  licensePlate := none
  vehiclePhotoUrl := none
  licensePlatePhotoUrl := none
  onboardingCompleted := false
  onboardingStep := 2
  agreementSigned := false
  agreementSignedAt := none
  onfleetId := none
  onfleetSyncedAt := none
  approvalStatus := none
  approvedAt := none
  approvedBy := none
  identityVerificationStatus := none
  identityVerificationSessionId := none
  identityVerifiedAt := none
  updatedAt := 0

/-! ## Spec invariant (spec section 8): verification only after approval -/

/-- For all profiles, a non-null `identityVerificationStatus` demands
`approvalStatus = "approved"`. -/
def ivInvariant (p : Profile) : Prop :=
  p.identityVerificationStatus ≠ none → p.approvalStatus = some "approved"

instance (p : Profile) : Decidable (ivInvariant p) := by
  unfold ivInvariant; infer_instance

/-- An approved profile that is mid-verification. -/
def pMidVerification : Profile :=
  { pBase with
    onboardingCompleted := true
    onboardingStep := 5
    approvalStatus := some "approved"
    identityVerificationStatus := some "pending" }

/-! ## Claim C1 -/

/-- C1 counterexample: the reject operation applied to an approved profile
that is mid identity verification produces a state with a non-null
`identityVerificationStatus` and `approvalStatus = "rejected"`, so the
claimed invariant is not preserved by every lifecycle operation. -/
theorem reject_breaks_iv_invariant_cex :
    ivInvariant pMidVerification ∧
    ¬ ivInvariant (rejectProfile pMidVerification "admin1" 5) := by
  decide

/-- C1 (amended): approve always establishes the invariant
`identityVerificationStatus ≠ null → approvalStatus = "approved"`, but
reject preserves it exactly when `identityVerificationStatus` was null
beforehand: reject never clears the verification status and has no
precondition, so rejecting a profile mid-verification violates the
invariant. -/
theorem approve_establishes_iv_invariant_reject_iff (p : Profile)
    (a : String) (t : Nat) :
    (∀ q, approveProfile p a t = .ok q → ivInvariant q) ∧
    (ivInvariant (rejectProfile p a t) ↔ p.identityVerificationStatus = none) := by
  constructor
  · intro q hq
    unfold approveProfile at hq
    split at hq
    · exact absurd hq (by simp)
    · cases hq
      intro _
      rfl
  · unfold ivInvariant rejectProfile
    simp

/-- C1 witness: the amended theorem applied at a concrete approved profile
mid-verification. -/
theorem approve_establishes_iv_invariant_reject_iff_witness :
    ivInvariant (rejectProfile pMidVerification "admin1" 5) ↔
      pMidVerification.identityVerificationStatus = none :=
  (approve_establishes_iv_invariant_reject_iff pMidVerification "admin1" 5).2

/-! ## Claim C2 -/

/-- A rejected profile. -/
def pRejected : Profile :=
  { pBase with
    onboardingCompleted := true
    onboardingStep := 5
    approvalStatus := some "rejected"
    approvedAt := some 2
    approvedBy := some "admin0" }

/-- C2 counterexample: approving an already-rejected profile does not fail
with a conflict; it succeeds and silently flips the record to approved. -/
theorem approve_rejected_succeeds_cex :
    approveProfile pRejected "admin1" 7 =
      .ok { pRejected with
        approvalStatus := some "approved"
        approvedAt := some 7
        approvedBy := some "admin1"
        identityVerificationStatus := some "pending"
        updatedAt := 7 } := by
  decide

/-- C2 (amended): approve fails with a conflict error only when the profile
is already approved (so approving a rejected or still-null/pending record
succeeds), and reject performs no precondition check at all: it succeeds on
every found profile and sets `approvalStatus = "rejected"`. -/
theorem approve_conflict_iff_already_approved (p : Profile) (a : String)
    (t : Nat) :
    ((∃ q, approveProfile p a t = .ok q) ↔ p.approvalStatus ≠ some "approved") ∧
    (rejectProfile p a t).approvalStatus = some "rejected" := by
  refine ⟨?_, rfl⟩
  unfold approveProfile
  constructor
  · rintro ⟨q, hq⟩
    intro hcontra
    rw [if_pos hcontra] at hq
    exact absurd hq (by simp)
  · intro h
    exact ⟨_, if_neg h⟩

/-- C2 witness: the amended theorem applied at a concrete rejected profile. -/
theorem approve_conflict_iff_already_approved_witness :
    (rejectProfile pRejected "admin2" 9).approvalStatus = some "rejected" :=
  (approve_conflict_iff_already_approved pRejected "admin2" 9).2

/-! ## Claim C3 -/

/-- C3: when a PATCH on a profile with `onboardingCompleted = false` and
`approvalStatus` null carries `onboardingCompleted = true` and does not touch
`approvalStatus`, the stored profile after a successful PATCH has
`approvalStatus = "pending"` — the derived automatic transition. -/
theorem completed_patch_sets_pending (emailOk phoneOk : String → Bool)
    (p : Profile) (b : UpdateBody) (now : Nat) (q : Profile)
    (h1 : p.onboardingCompleted = false) (h2 : p.approvalStatus = none)
    (h3 : b.onboardingCompleted = some true) (h4 : b.approvalStatus = none)
    (h5 : patchProfile emailOk phoneOk p b now = .ok q) :
    q.approvalStatus = some "pending" ∧ q.onboardingCompleted = true := by
  have hu1 : (applyUpdate p b now).onboardingCompleted = true := by
    simp [applyUpdate, h3]
  have hu2 : (applyUpdate p b now).approvalStatus = none := by
    simp [applyUpdate, h4, h2]
  unfold patchProfile at h5
  simp only [hu1, hu2, optTruthy, Bool.not_false, Bool.and_self, if_true] at h5
  split_ifs at h5 <;>
    first
      | (rw [Except.ok.injEq] at h5; subst h5; exact ⟨rfl, rfl⟩)
      | exact absurd h5 (by simp)

/-- The PATCH body that only reports onboarding completion. -/
def bComplete : UpdateBody := { onboardingCompleted := some true }

/-- The profile stored after `patchProfile pBase bComplete 4`. -/
def qC3 : Profile :=
  { pBase with
    onboardingCompleted := true
    approvalStatus := some "pending"
    updatedAt := 4 }

/-- C3 witness: the theorem applied at a concrete fresh profile and the
completion body. -/
theorem completed_patch_sets_pending_witness :
    qC3.approvalStatus = some "pending" ∧ qC3.onboardingCompleted = true :=
  completed_patch_sets_pending (fun _ => false) (fun _ => false) pBase
    bComplete 4 qC3 rfl rfl rfl rfl (by decide)

/-! ## Claim C10 -/

/-- A PATCH body setting the lifecycle fields directly. -/
def lifecycleBody : UpdateBody :=
  { approvalStatus := some (some "approved")
    identityVerificationStatus := some (some "verified")
    onfleetId := some (some "OF-1")
    onboardingCompleted := some true }

/-- C10: the owner-facing PATCH accepts `approvalStatus`,
`identityVerificationStatus`, `onfleetId` and `onboardingCompleted` through
`updateDriverProfileSchema`, with no admin check and no step validation
applied (the body carries no `onboardingStep`), so the owning account can set
`approvalStatus = "approved"` directly on any existing profile. -/
theorem patch_can_set_lifecycle_fields (emailOk phoneOk : String → Bool)
    (p : Profile) (now : Nat) :
    ∃ q, patchProfile emailOk phoneOk p lifecycleBody now = .ok q ∧
      q.approvalStatus = some "approved" ∧
      q.identityVerificationStatus = some "verified" ∧
      q.onfleetId = some "OF-1" ∧
      q.onboardingCompleted = true :=
  ⟨applyUpdate p lifecycleBody now, rfl, rfl, rfl, rfl, rfl⟩

/-! ## Helper lemmas on the verification recording paths -/

/-- The poll mapping is idempotent in the remote status. -/
theorem mapStatusPoll_idem (cur : Option String) (r : String) :
    mapStatusPoll (mapStatusPoll cur r) r = mapStatusPoll cur r := by
  unfold mapStatusPoll
  split_ifs <;> rfl

/-- The polling path never touches the stored session id. -/
theorem pollRecord_fst_session (p : Profile) (r : String) (n : Nat)
    (o : OnfleetRemote) :
    (pollRecord p r n o).1.identityVerificationSessionId =
      p.identityVerificationSessionId := by
  cases hs : p.identityVerificationSessionId with
  | none => simp [pollRecord, hs]
  | some v =>
    simp only [pollRecord, hs]
    split_ifs <;> simp [hs]

/-- With a stored session id, the polling path stores exactly the mapped
status. -/
theorem pollRecord_fst_status (p : Profile) (sid r : String) (n : Nat)
    (o : OnfleetRemote) (hs : p.identityVerificationSessionId = some sid) :
    (pollRecord p r n o).1.identityVerificationStatus =
      mapStatusPoll p.identityVerificationStatus r := by
  simp only [pollRecord, hs]
  split_ifs with h1 <;> try rfl
  exact h1.symm

/-- When the mapped status equals the stored one, the polling path writes
nothing and triggers no sync. -/
theorem pollRecord_noop (p : Profile) (r : String) (n : Nat)
    (o : OnfleetRemote)
    (h : mapStatusPoll p.identityVerificationStatus r =
      p.identityVerificationStatus) :
    pollRecord p r n o = (p, false) := by
  cases hs : p.identityVerificationSessionId with
  | none => simp [pollRecord, hs]
  | some v =>
    simp only [pollRecord, hs]
    rw [if_pos h]

/-- The webhook path always stores the mapped status. -/
theorem webhookRecord_fst_status (p : Profile) (r : String) (n : Nat)
    (o : OnfleetRemote) :
    (webhookRecord p r n o).1.identityVerificationStatus =
      some (mapStatusWebhook r) := by
  simp only [webhookRecord]
  split_ifs <;> rfl

/-! ## Claim C4 -/

/-- The Onfleet API responding with neither a found worker nor a created
one: the sync attempt fails. -/
def oracleFail : OnfleetRemote := ⟨none, none⟩

/-- An approved profile with an open verification session, still pending. -/
def pSession : Profile :=
  { pBase with
    onboardingCompleted := true
    onboardingStep := 5
    approvalStatus := some "approved"
    identityVerificationStatus := some "pending"
    identityVerificationSessionId := some "vs_1" }

/-- C4 counterexample: on the webhook path, a second delivery of the same
remote status `"verified"` re-stamps `identityVerifiedAt` (100 becomes 200)
and triggers the Onfleet sync again (the first sync failed, so `onfleetId`
is still null), so `recordVerificationResult` is not idempotent on the
webhook path. -/
theorem webhook_not_idempotent_cex :
    (webhookRecord (webhookRecord pSession "verified" 100 oracleFail).1
        "verified" 200 oracleFail).1.identityVerifiedAt ≠
      (webhookRecord pSession "verified" 100 oracleFail).1.identityVerifiedAt ∧
    (webhookRecord (webhookRecord pSession "verified" 100 oracleFail).1
        "verified" 200 oracleFail).2 = true := by
  decide

/-- C4 (amended): the polling path is idempotent — re-applying any remote
status to the profile stored by a first application changes nothing and
triggers no sync — but the webhook path is not: it unconditionally rewrites
the record, re-stamps `identityVerifiedAt` on every verified event and
re-triggers the sync while `onfleetId` is still unset. -/
theorem poll_record_idempotent (p : Profile) (r : String) (n1 n2 : Nat)
    (o1 o2 : OnfleetRemote) :
    pollRecord (pollRecord p r n1 o1).1 r n2 o2 =
      ((pollRecord p r n1 o1).1, false) := by
  cases hs : p.identityVerificationSessionId with
  | none =>
    have h1 : pollRecord p r n1 o1 = (p, false) := by
      simp [pollRecord, hs]
    rw [h1]
    simp [pollRecord, hs]
  | some sid =>
    apply pollRecord_noop
    rw [pollRecord_fst_status p sid r n1 o1 hs, mapStatusPoll_idem]

/-! ## Claim C5 -/

/-- The remote statuses the switch statements name. -/
def knownRemoteStatuses : List String :=
  ["verified", "requires_input", "requires_action", "canceled",
   "processing", "requires_review"]

/-- C5 (amended): the status mapping is verified→verified,
requires_input/requires_action→requires_input, canceled→failed,
processing/requires_review→pending on both paths; for any other remote
status the polling path leaves the local status unchanged, but the webhook
path maps it to `"pending"` instead. -/
theorem verification_status_mapping (p : Profile) (sid : String) (now : Nat)
    (o : OnfleetRemote) (r : String)
    (hs : p.identityVerificationSessionId = some sid)
    (hr : r ∉ knownRemoteStatuses) :
    (pollRecord p "verified" now o).1.identityVerificationStatus =
      some "verified" ∧
    (pollRecord p "requires_input" now o).1.identityVerificationStatus =
      some "requires_input" ∧
    (pollRecord p "requires_action" now o).1.identityVerificationStatus =
      some "requires_input" ∧
    (pollRecord p "canceled" now o).1.identityVerificationStatus =
      some "failed" ∧
    (pollRecord p "processing" now o).1.identityVerificationStatus =
      some "pending" ∧
    (pollRecord p "requires_review" now o).1.identityVerificationStatus =
      some "pending" ∧
    (pollRecord p r now o).1.identityVerificationStatus =
      p.identityVerificationStatus ∧
    (webhookRecord p "verified" now o).1.identityVerificationStatus =
      some "verified" ∧
    (webhookRecord p "requires_input" now o).1.identityVerificationStatus =
      some "requires_input" ∧
    (webhookRecord p "requires_action" now o).1.identityVerificationStatus =
      some "requires_input" ∧
    (webhookRecord p "canceled" now o).1.identityVerificationStatus =
      some "failed" ∧
    (webhookRecord p "processing" now o).1.identityVerificationStatus =
      some "pending" ∧
    (webhookRecord p "requires_review" now o).1.identityVerificationStatus =
      some "pending" ∧
    (webhookRecord p r now o).1.identityVerificationStatus =
      some "pending" := by
  have hr6 : r ≠ "verified" ∧ r ≠ "requires_input" ∧ r ≠ "requires_action" ∧
      r ≠ "canceled" ∧ r ≠ "processing" ∧ r ≠ "requires_review" := by
    simp only [knownRemoteStatuses, List.mem_cons, List.mem_singleton,
      not_or] at hr
    tauto
  obtain ⟨h1, h2, h3, h4, h5, h6⟩ := hr6
  refine ⟨?_, ?_, ?_, ?_, ?_, ?_, ?_, ?_, ?_, ?_, ?_, ?_, ?_, ?_⟩ <;>
    first
      | (rw [pollRecord_fst_status p sid _ now o hs]; rfl)
      | (rw [pollRecord_fst_status p sid r now o hs];
         simp [mapStatusPoll, h1, h2, h3, h4, h5, h6])
      | (rw [webhookRecord_fst_status]; rfl)
      | (rw [webhookRecord_fst_status];
         simp [mapStatusWebhook, h1, h2, h3, h4, h5, h6])

/-- A profile whose stored verification status is `requires_input`. -/
def pSessionRI : Profile :=
  { pSession with identityVerificationStatus := some "requires_input" }

/-- C5 counterexample: the remote status `"expired"` is outside the mapped
vocabulary, so the claim says the local status stays `requires_input`; on
the webhook path it becomes `pending` instead. -/
theorem webhook_unknown_status_not_unchanged_cex :
    (webhookRecord pSessionRI "expired" 7 oracleFail).1.identityVerificationStatus ≠
      pSessionRI.identityVerificationStatus := by
  decide

/-- C5 witness: the mapping theorem applied at a concrete profile with an
open session and the unmapped remote status `"expired"`. -/
theorem verification_status_mapping_witness :
    pSession.identityVerificationSessionId = some "vs_1" ∧
    (pollRecord pSession "canceled" 7 oracleFail).1.identityVerificationStatus =
      some "failed" :=
  ⟨rfl,
    (verification_status_mapping pSession "vs_1" 7 oracleFail "expired" rfl
      (by decide)).2.2.2.1⟩

/-! ## Claim C6 -/

/-- C6: when a poll or webhook transitions a profile into verified while the
phone is truthy and `onfleetId` is falsy, the Onfleet sync is triggered; and
when the sync adapter reports `success = false`, the stored profile still
shows `identityVerificationStatus = "verified"` — the local verification
state is committed before the sync and never rolled back. -/
theorem verified_sync_failure_keeps_verified (p : Profile) (sid : String)
    (now : Nat) (o : OnfleetRemote)
    (hs : p.identityVerificationSessionId = some sid)
    (hnv : p.identityVerificationStatus ≠ some "verified")
    (hph : optTruthy p.phone = true)
    (hof : optTruthy p.onfleetId = false)
    (hfail : (syncDriverToOnfleet p.phone o).success = false) :
    (pollRecord p "verified" now o).2 = true ∧
    (pollRecord p "verified" now o).1.identityVerificationStatus =
      some "verified" ∧
    (webhookRecord p "verified" now o).2 = true ∧
    (webhookRecord p "verified" now o).1.identityVerificationStatus =
      some "verified" := by
  have hmap : mapStatusPoll p.identityVerificationStatus "verified" =
      some "verified" := rfl
  have hneq : ¬ (mapStatusPoll p.identityVerificationStatus "verified" =
      p.identityVerificationStatus) := by
    rw [hmap]; exact fun hcontra => hnv hcontra.symm
  constructor
  · simp only [pollRecord, hs]
    rw [if_neg hneq]
    simp [hmap, hph, hof, hfail]
  constructor
  · simp only [pollRecord, hs]
    rw [if_neg hneq]
    simp [hmap, hph, hof, hfail]
  · simp only [webhookRecord]
    simp [mapStatusWebhook, hph, hof, hfail]

/-- C6 witness: the theorem applied at a concrete pending profile whose sync
attempt fails (the Onfleet API neither finds nor creates a worker). -/
theorem verified_sync_failure_keeps_verified_witness :
    (pollRecord pSession "verified" 9 oracleFail).2 = true ∧
    (pollRecord pSession "verified" 9 oracleFail).1.identityVerificationStatus =
      some "verified" ∧
    (webhookRecord pSession "verified" 9 oracleFail).2 = true ∧
    (webhookRecord pSession "verified" 9 oracleFail).1.identityVerificationStatus =
      some "verified" :=
  verified_sync_failure_keeps_verified pSession "vs_1" 9 oracleFail rfl
    (by decide) (by decide) (by decide) (by decide)

/-! ## Helper lemmas on the availability store -/

/-- Updating a row in place never changes its (profile, date) key. -/
theorem availKey_applyAvailData (pid date : String) (d : UpsertData)
    (now : Nat) (a : Avail) :
    availKey pid date (applyAvailData d now a) = availKey pid date a := rfl

/-- A list with exactly one row satisfying a predicate has no second,
different row satisfying it. -/
theorem key_unique {l : List Avail} {p : Avail → Bool}
    (hc : l.countP p = 1) {b ex : Avail} (hb : b ∈ l) (hpb : p b = true)
    (hex : ex ∈ l) (hpex : p ex = true) : b = ex := by
  rw [List.countP_eq_length_filter] at hc
  obtain ⟨y, hy⟩ := List.length_eq_one.mp hc
  have hb2 : b ∈ l.filter p := List.mem_filter.mpr ⟨hb, hpb⟩
  have hex2 : ex ∈ l.filter p := List.mem_filter.mpr ⟨hex, hpex⟩
  rw [hy] at hb2 hex2
  simp only [List.mem_singleton] at hb2 hex2
  rw [hb2, hex2]

/-- The upsert leaves exactly one (profile, date) row when the store held at
most one beforehand. -/
theorem upsert_count_one (st : AvailStore) (pid date : String)
    (d : UpsertData) (now : Nat) (hkey : countKey st pid date ≤ 1) :
    countKey (upsertDriverAvailability st pid date d now).1 pid date = 1 := by
  cases hfind : getDriverAvailabilityByDate st pid date with
  | none =>
    have hall := List.find?_eq_none.mp hfind
    have hzero : st.entries.countP (availKey pid date) = 0 :=
      List.countP_eq_zero.mpr hall
    simp only [upsertDriverAvailability, hfind, countKey,
      List.countP_append, hzero]
    simp [availKey]
  | some ex =>
    have hmem : ex ∈ st.entries := List.mem_of_find?_eq_some hfind
    have hpex : availKey pid date ex = true := List.find?_some hfind
    have hpos : 0 < st.entries.countP (availKey pid date) :=
      List.countP_pos.mpr ⟨ex, hmem, hpex⟩
    have hone : st.entries.countP (availKey pid date) = 1 := by
      have := hkey
      unfold countKey at this
      omega
    simp only [upsertDriverAvailability, hfind, countKey, List.countP_map]
    have hfun : (availKey pid date ∘ fun a =>
        if a.id == ex.id then applyAvailData d now a else a) =
          availKey pid date := by
      funext a
      by_cases hid : a.id = ex.id <;> simp [hid, availKey_applyAvailData]
    rw [hfun, hone]

/-- When the store holds exactly one (profile, date) row, the upsert takes
the update branch and every (profile, date) row afterwards carries the
status of the data. -/
theorem upsert_status_of_count_one (st : AvailStore) (pid date s : String)
    (d : UpsertData) (now : Nat) (hd : d.status = some s)
    (hc : countKey st pid date = 1) :
    ∀ a ∈ (upsertDriverAvailability st pid date d now).1.entries,
      availKey pid date a = true → a.status = s := by
  cases hfind : getDriverAvailabilityByDate st pid date with
  | none =>
    exfalso
    have hall := List.find?_eq_none.mp hfind
    have hzero : st.entries.countP (availKey pid date) = 0 :=
      List.countP_eq_zero.mpr hall
    unfold countKey at hc
    omega
  | some ex =>
    have hmem : ex ∈ st.entries := List.mem_of_find?_eq_some hfind
    have hpex : availKey pid date ex = true := List.find?_some hfind
    intro a ha hkeya
    simp only [upsertDriverAvailability, hfind, List.mem_map] at ha
    obtain ⟨b, hbmem, hba⟩ := ha
    by_cases hid : b.id == ex.id
    · rw [if_pos hid] at hba
      subst hba
      simp [applyAvailData, hd]
    · rw [if_neg hid] at hba
      subst hba
      have : b = ex := key_unique hc hbmem hkeya hmem hpex
      subst this
      simp at hid

/-! ## Claim C7 -/

/-- C7: two availability writes through `POST /api/availability` for the same
profile and date, with statuses `s1` then `s2`, leave exactly one entry for
that (profile, date) key, and its status is `s2` — provided the store
satisfied its at-most-one-entry-per-key invariant beforehand. -/
theorem set_availability_upsert_law (st : AvailStore)
    (pid date s1 s2 : String) (no1 no2 : Option (Option String))
    (b1 c1 d1 b2 c2 d2 : Option Bool) (t1 t2 : Nat)
    (hkey : countKey st pid date ≤ 1) :
    countKey ((setAvailability (setAvailability st pid date s1 no1 b1 c1 d1
        t1).1 pid date s2 no2 b2 c2 d2 t2).1) pid date = 1 ∧
    ∀ a ∈ ((setAvailability (setAvailability st pid date s1 no1 b1 c1 d1
        t1).1 pid date s2 no2 b2 c2 d2 t2).1).entries,
      availKey pid date a = true → a.status = s2 := by
  simp only [setAvailability]
  have h1 := upsert_count_one st pid date
    { status := some s1, notes := no1, thermalBlanket := b1, thermalBag := c1,
      otherPackaging := d1, respondedAt := some (some t1) } t1 hkey
  constructor
  · exact upsert_count_one _ pid date _ t2 (by omega)
  · exact upsert_status_of_count_one _ pid date s2 _ t2 rfl h1

/-- C7 witness: the upsert law applied to the empty store with two writes
for the same date. -/
theorem set_availability_upsert_law_witness :
    countKey ((setAvailability (setAvailability ⟨[], 0⟩ "p1" "2025-03-10"
        "available" none none none none 1).1 "p1" "2025-03-10"
        "unavailable" none none none none 2).1) "p1" "2025-03-10" = 1 ∧
    ∀ a ∈ ((setAvailability (setAvailability ⟨[], 0⟩ "p1" "2025-03-10"
        "available" none none none none 1).1 "p1" "2025-03-10"
        "unavailable" none none none none 2).1).entries,
      availKey "p1" "2025-03-10" a = true → a.status = "unavailable" :=
  set_availability_upsert_law ⟨[], 0⟩ "p1" "2025-03-10" "available"
    "unavailable" none none none none none none none none 1 2 (by decide)

/-! ## Claim C8 -/

/-- C8 (amended): `listAvailability` applies no ordering (the select has no
order-by clause, entries come back in store order); when both bounds are
given it returns exactly the profile entries with
`startDate ≤ date ≤ endDate` inclusive, and when the bounds are omitted it
returns exactly the full set of the profile entries. -/
theorem list_availability_filter (st : AvailStore) (pid s e : String)
    (a : Avail) :
    (a ∈ getDriverAvailability st pid (some s) (some e) ↔
      a ∈ st.entries ∧ a.driverProfileId = pid ∧
        dateLe s a.date = true ∧ dateLe a.date e = true) ∧
    (a ∈ getDriverAvailability st pid none none ↔
      a ∈ st.entries ∧ a.driverProfileId = pid) := by
  constructor <;>
    simp [getDriverAvailability, List.mem_filter, and_assoc]

/-- A store reached by inserting date 2025-03-20 before date 2025-03-10 for
the same profile. -/
def stOutOfOrder : AvailStore :=
  (setAvailability (setAvailability ⟨[], 0⟩ "p1" "2025-03-20" "available"
      none none none none 1).1 "p1" "2025-03-10" "available"
      none none none none 2).1

/-- C8 counterexample: after inserting 2025-03-20 before 2025-03-10, the
listing returns the dates in insertion order, which is not ascending date
order — the select has no order-by clause. -/
theorem list_availability_not_sorted_cex :
    (getDriverAvailability stOutOfOrder "p1" none none).map
        (fun a => a.date) = ["2025-03-20", "2025-03-10"] ∧
    dateLe "2025-03-20" "2025-03-10" = false := by
  constructor
  · rfl
  · decide

/-! ## Claim C9 -/

/-- On a body targeting step 5 with a truthy `onboardingCompleted`, the PATCH
reduces to the step-4 agreement validation followed by the body
application. -/
theorem patch_step5_eval (emailOk phoneOk : String → Bool) (p : Profile)
    (b : UpdateBody) (now : Nat) (h5 : b.onboardingStep = some 5)
    (hc : b.onboardingCompleted = some true) :
    patchProfile emailOk phoneOk p b now =
      if step4Valid b then
        (if (applyUpdate p b now).onboardingCompleted &&
            !optTruthy (applyUpdate p b now).approvalStatus then
          .ok { applyUpdate p b now with
                approvalStatus := some "pending", updatedAt := now }
        else .ok (applyUpdate p b now))
      else .error "Invalid data" := by
  unfold patchProfile
  simp [h5, hc]

/-- C9 counterexample: a PATCH carrying only `onboardingStep = 5` (no
`onboardingCompleted` key) succeeds on a step-4 profile whose
`agreementSigned` is still false, and the stored profile afterwards has
`onboardingCompleted = false` and no `agreementSignedAt` stamp: the route
neither requires `agreementSigned = true` for this step-5 advance nor sets
`onboardingCompleted`/`agreementSignedAt` itself. -/
theorem step5_without_completion_cex :
    patchProfile (fun _ => false) (fun _ => false)
        { pBase with onboardingStep := 4 } { onboardingStep := some 5 } 9 =
      .ok { pBase with onboardingStep := 5, updatedAt := 9 } ∧
    pBase.agreementSigned = false ∧
    ({ pBase with onboardingStep := 5, updatedAt := 9 }).onboardingCompleted =
      false ∧
    ({ pBase with onboardingStep := 5, updatedAt := 9 }).agreementSignedAt =
      none := by
  refine ⟨by decide, rfl, rfl, rfl⟩

/-- C9 (amended): the PATCH validates `agreementSigned = true` for
`stepTarget = 5` only when the body also carries `onboardingCompleted = true`;
the operation itself neither sets `onboardingCompleted` nor stamps
`agreementSignedAt` — both are applied only as supplied by the caller.  When
the body carries `onboardingStep = 5` and `onboardingCompleted = true`, the
PATCH succeeds exactly when the body also carries `agreementSigned = true`,
and the stored profile then has `onboardingCompleted = true`,
`onboardingStep = 5` and the caller-supplied `agreementSignedAt` (keeping the
stored value when the body omits that key). -/
theorem step5_patch_completion (emailOk phoneOk : String → Bool) (p : Profile)
    (b : UpdateBody) (now : Nat) (h5 : b.onboardingStep = some 5)
    (hc : b.onboardingCompleted = some true) :
    ((∃ q, patchProfile emailOk phoneOk p b now = .ok q) ↔
      b.agreementSigned = some true) ∧
    ∀ q, patchProfile emailOk phoneOk p b now = .ok q →
      q.onboardingCompleted = true ∧ q.onboardingStep = 5 ∧
      q.agreementSignedAt = b.agreementSignedAt.getD p.agreementSignedAt := by
  rw [patch_step5_eval emailOk phoneOk p b now h5 hc]
  constructor
  · constructor
    · rintro ⟨q, hq⟩
      by_contra hag
      have hv : step4Valid b = false := by simp [step4Valid, hag]
      rw [hv] at hq
      exact absurd hq (by simp)
    · intro hag
      have hv : step4Valid b = true := by simp [step4Valid, hag]
      rw [hv]
      simp only [if_true]
      by_cases hpend : ((applyUpdate p b now).onboardingCompleted &&
          !optTruthy (applyUpdate p b now).approvalStatus) = true
      · exact ⟨_, if_pos hpend⟩
      · exact ⟨_, if_neg hpend⟩
  · intro q hq
    split_ifs at hq <;>
      first
        | (rw [Except.ok.injEq] at hq; subst hq;
           exact ⟨by simp [applyUpdate, hc], by simp [applyUpdate, h5], rfl⟩)
        | exact absurd hq (by simp)

/-- The completion body the client sends on the agreement step. -/
def bStep5 : UpdateBody :=
  { onboardingStep := some 5
    onboardingCompleted := some true
    agreementSigned := some true
    agreementSignedAt := some (some 77) }

/-- C9 witness: the amended theorem applied at a concrete profile and the
full completion body. -/
theorem step5_patch_completion_witness :
    (∃ q, patchProfile (fun _ => false) (fun _ => false) pBase bStep5 9 =
      .ok q) ↔ bStep5.agreementSigned = some true :=
  (step5_patch_completion (fun _ => false) (fun _ => false) pBase bStep5 9
    rfl rfl).1

end StarlingHub
